import Mathlib

/-!
Verification development for the chatbot-sql backend core:
session data model (`src/backend/src/domain/entities.py`),
execution-context propagation and cancellation registry
(`src/backend/src/infrastructure/execution_context.py`),
query-context enhancement and result capture
(`src/backend/src/infrastructure/adapters.py`),
the process-query use case (`src/backend/src/application/use_cases.py`),
and the session sync endpoint (`src/backend/src/presentation/controllers.py`).

Python machine-level details are embedded as follows: timestamps
(`datetime.now()`) become an explicit `now : Nat` argument (seconds);
Python `int` becomes `Int`; dictionaries keyed by strings become
association lists; fallible/`try` code becomes total functions whose
exceptional branches are modelled exactly as the `except` handlers behave.
-/

namespace ChatbotSql

/-! ## String helpers (embedding Python `in`, `.lower()`, `re.search`) -/

/-- Contiguous-sublist test on character lists. -/
def listIsInfix (pat : List Char) : List Char → Bool
  | [] => pat.isEmpty
  | c :: rest => pat.isPrefixOf (c :: rest) || listIsInfix pat rest

/-- Python `pat in s` substring test. -/
def strContains (s pat : String) : Bool :=
  listIsInfix pat.data s.data

/-- ASCII lowering of one character (the fragment of Python `str.lower`
exercised by the lowercase keyword/marker patterns matched against it). -/
def lowerChar (c : Char) : Char :=
  if 65 ≤ c.toNat ∧ c.toNat ≤ 90 then Char.ofNat (c.toNat + 32) else c

/-- Python `s.lower()`. -/
def strLower (s : String) : String :=
  ⟨s.data.map lowerChar⟩

/-- The whitespace characters stripped by Python `str.strip()`. -/
def isSpaceChar (c : Char) : Bool :=
  c = ' ' || c = '\t' || c = '\n' || c = '\r' || c = '\x0b' || c = '\x0c'

/-- Python `s.strip()`: drop leading and trailing whitespace. -/
def strStrip (s : String) : String :=
  ⟨((s.data.dropWhile isSpaceChar).reverse.dropWhile isSpaceChar).reverse⟩

/-- Numeric value of a run of ASCII digits (used for `int(match.group(1))`). -/
def digitsVal (ds : List Char) : Nat :=
  ds.foldl (fun a c => a * 10 + (c.toNat - 48)) 0

/-- One attempted match of the regex `retry in ([0-9]+)` at the head of `cs`:
the literal text `"retry in "` followed by a maximal nonempty digit run. -/
def retryMatchAt (cs : List Char) : Option Nat :=
  if "retry in ".data.isPrefixOf cs then
    let ds := (cs.drop 9).takeWhile Char.isDigit
    if ds.isEmpty then none else some (digitsVal ds)
  else none

/-- Leftmost match of `re.search(r'retry in ([0-9]+)', msg)` over the
character list, as in `ProcessQueryUseCase.execute` (use_cases.py line 93). -/
def findRetryIn : List Char → Option Nat
  | [] => none
  | c :: rest =>
    match retryMatchAt (c :: rest) with
    | some n => some n
    | none => findRetryIn rest

/-- `re.search(r'retry in ([0-9]+)', msg)` on a string. -/
def parseRetrySeconds (msg : String) : Option Nat :=
  findRetryIn msg.data

/-! ## Association lists: Python `dict` keyed by strings -/

/-- Python `d.get(key)`. -/
def alistFind {β : Type} : List (String × β) → String → Option β
  | [], _ => none
  | (k, v) :: rest, key => if k = key then some v else alistFind rest key

/-- Python `d[key] = v`. -/
def alistSet {β : Type} : List (String × β) → String → β → List (String × β)
  | [], key, v => [(key, v)]
  | (k, w) :: rest, key, v =>
    if k = key then (k, v) :: rest else (k, w) :: alistSet rest key v

/-- Python `del d[key]` / `d.pop(key, None)`. -/
def alistDel {β : Type} (l : List (String × β)) (key : String) : List (String × β) :=
  l.filter (fun kv => kv.1 != key)

theorem alistFind_alistSet_self {β : Type} (l : List (String × β)) (key : String) (v : β) :
    alistFind (alistSet l key v) key = some v := by
  induction l with
  | nil => simp [alistSet, alistFind]
  | cons hd tl ih =>
    obtain ⟨k, w⟩ := hd
    by_cases h : k = key
    · simp [alistSet, alistFind, h]
    · simp [alistSet, alistFind, h, ih]

/-! ## Domain entities (`src/backend/src/domain/entities.py`) -/

/-- `QueryType` enum (entities.py lines 8-12). -/
inductive QueryType where
  | select
  | exportExcel
  | exportCsv
  | exportPdf
deriving DecidableEq

/-- `Message` dataclass (entities.py lines 34-39); metadata dict as an
association list. -/
structure Message where
  role : String
  content : String
  timestamp : Nat
  metadata : List (String × String)
deriving DecidableEq

/-- `QueryResult` frozen dataclass (entities.py lines 24-31). `row_count`
is a Python `int`, so `Int` here. -/
structure QueryResult where
  query : String
  result_data : String
  timestamp : Nat
  row_count : Int
  columns : List String
  query_type : QueryType
deriving DecidableEq

/-- Modelled from the spec: the `stats: {message_count, query_count,
updated_at}` record of a `Session` (spec §3). The class itself is absent
from `src/` (`entities.py` lacks it) although `use_cases.py` and
`controllers.py` read and write `session.stats.message_count`,
`session.stats.query_count` and `session.stats.updated_at`. -/
structure SessionStats where
  message_count : Nat
  query_count : Int
  updated_at : Nat
deriving DecidableEq

/-- `Session` aggregate (entities.py lines 42-111). The fields `stats`,
`title` and `updated_at` are referenced by `controllers.py` and
`use_cases.py` but missing from the `Session` class in `src/`; they are
modelled from the spec (§3: zero stats on creation). -/
structure Session where
  session_id : String
  created_at : Nat
  last_activity : Nat
  updated_at : Nat
  message_history : List Message
  query_results : List QueryResult
  active_dataset : Option QueryResult
  stats : SessionStats
  title : Option String
deriving DecidableEq

/-- `Session.__init__` (entities.py lines 43-49), with the spec-modelled
zero stats of a fresh session. -/
def Session.mk_new (sid : String) (now : Nat) : Session :=
  { session_id := sid
    created_at := now
    last_activity := now
    updated_at := now
    message_history := []
    query_results := []
    active_dataset := none
    stats := { message_count := 0, query_count := 0, updated_at := now }
    title := none }

/-- `Session.add_message` (entities.py lines 71-73). -/
def Session.add_message (s : Session) (m : Message) (now : Nat) : Session :=
  { s with message_history := s.message_history ++ [m], last_activity := now }

/-- `Session.add_query_result` (entities.py lines 75-83): append to the
result list, pop the front element when the length exceeds 5, and replace
`active_dataset` only when `row_count > 0`. -/
def Session.add_query_result (s : Session) (q : QueryResult) (now : Nat) : Session :=
  let qrs := s.query_results ++ [q]
  let qrs := if qrs.length > 5 then qrs.tail else qrs
  { s with
    query_results := qrs
    active_dataset := if q.row_count > 0 then some q else s.active_dataset
    last_activity := now }

/-- `Session.is_expired` (entities.py lines 85-87), with the wall clock as
an explicit `now` (seconds). -/
def Session.is_expired (s : Session) (timeout now : Nat) : Bool :=
  now - s.last_activity > timeout

/-! ## Execution context (`execution_context.py`)

The two storage domains of one Python process locality (the ContextVars of
the current async context and the thread-locals of the calling thread) are
embedded as one record of four optional cells. `α` is the type of the
opaque session objects stored by reference. -/

/-- State of `_session_var`, `_request_id_var` (execution_context.py lines
9-10) and `_thread_local.session`, `_thread_local.request_id` (line 12)
as visible to one thread in one async context. -/
structure ExecContextState (α : Type) where
  session_var : Option α
  request_id_var : Option String
  thread_session : Option α
  thread_request_id : Option String
deriving DecidableEq

/-- `set_for_context` (execution_context.py lines 71-75); the returned
reset tokens are the previous values. -/
def set_for_context {α : Type} (st : ExecContextState α) (s : α) (r : String) :
    ExecContextState α × (Option α × Option String) :=
  ({ st with session_var := some s, request_id_var := some r },
   (st.session_var, st.request_id_var))

/-- `set_for_thread` (execution_context.py lines 88-90). -/
def set_for_thread {α : Type} (st : ExecContextState α) (s : α) (r : String) :
    ExecContextState α :=
  { st with thread_session := some s, thread_request_id := some r }

/-- `clear_for_thread` (execution_context.py lines 93-99). -/
def clear_for_thread {α : Type} (st : ExecContextState α) : ExecContextState α :=
  { st with thread_session := none, thread_request_id := none }

/-- `get_current` (execution_context.py lines 102-111): prefer the
ContextVar session; when it is `None`, fall back to the thread-locals. -/
def get_current {α : Type} (st : ExecContextState α) : Option α × Option String :=
  match st.session_var with
  | some s => (some s, st.request_id_var)
  | none => (st.thread_session, st.thread_request_id)

/-! ## Cancellation registry (`execution_context.py` lines 14-68)

`τ` is the type of opaque task handles. `entry['task'].cancel()` in
`set_cancel` is a best-effort side effect on the task object and does not
change the registry, so it has no footprint here. -/

/-- One `_registry` entry: `{'task': asyncio.Task | None, 'event':
threading.Event()}`; the event is its boolean latch. -/
structure RegistryEntry (τ : Type) where
  task : Option τ
  event : Bool
deriving DecidableEq

/-- The `_registry` dict, request id to entry. -/
abbrev Registry (τ : Type) := List (String × RegistryEntry τ)

/-- `register_task` (execution_context.py lines 19-25): create the entry
with an unset event if absent, then store the task handle. -/
def register_task {τ : Type} (reg : Registry τ) (rid : String) (t : Option τ) :
    Registry τ :=
  match alistFind reg rid with
  | some entry => alistSet reg rid { entry with task := t }
  | none => alistSet reg rid { task := t, event := false }

/-- `unregister_task` (execution_context.py lines 27-33). -/
def unregister_task {τ : Type} (reg : Registry τ) (rid : String) : Registry τ :=
  alistDel reg rid

/-- `set_cancel` (execution_context.py lines 35-50): create a placeholder
entry if absent, then set the event latch. Total, as the Python never
raises (missing ids get a fresh entry; inner failures are swallowed). -/
def set_cancel {τ : Type} (reg : Registry τ) (rid : String) : Registry τ :=
  match alistFind reg rid with
  | some entry => alistSet reg rid { entry with event := true }
  | none => alistSet reg rid { task := none, event := true }

/-- The registry lookup half of `is_cancelled_current` (execution_context.py
lines 56-60): a missing entry reads as not cancelled. -/
def is_cancelled {τ : Type} (reg : Registry τ) (rid : String) : Bool :=
  match alistFind reg rid with
  | some entry => entry.event
  | none => false

/-- `is_cancelled_current` (execution_context.py lines 52-60): read the
request id from `get_current`; `if not reqid` makes both a missing and an
empty-string request id answer `False`. -/
def is_cancelled_current {α τ : Type} (st : ExecContextState α) (reg : Registry τ) :
    Bool :=
  match (get_current st).2 with
  | none => false
  | some rid => if rid = "" then false else is_cancelled reg rid

/-! ## Query context enhancer (`adapters.py` lines 134-187) -/

/-- `QueryContextEnhancer.CONTEXTUAL_KEYWORDS` (adapters.py lines 135-160). -/
def CONTEXTUAL_KEYWORDS : List String :=
  ["dessas", "desses", "desta", "deste", "disso", "deles", "delas",
   "anterior", "últimos", "últimas", "mesmo", "mesma", "mesmos", "mesmas",
   "esses", "essas", "aqueles", "aquelas", "os dados", "as informações",
   "resultado", "resultados", "consulta anterior", "query anterior"]

/-- `needs_context` (adapters.py lines 162-164): any keyword occurs in the
lowered query. -/
def needs_context (query : String) : Bool :=
  CONTEXTUAL_KEYWORDS.any (fun k => strContains (strLower query) k)

/-- `Session.get_context_summary` (entities.py lines 89-111). -/
def get_context_summary (s : Session) : String :=
  if s.message_history.isEmpty then ""
  else
    let recent := s.message_history.drop (s.message_history.length - 6)
    let parts := recent.map (fun m =>
      (if m.role = "user" then "🙋‍♂️" else "🤖") ++ " " ++
      (if m.content.length > 200 then m.content.take 200 ++ "..." else m.content))
    let parts :=
      match s.active_dataset with
      | some ds =>
        let columnsPreview := String.intercalate ", " (ds.columns.take 5)
        let columnsPreview :=
          if ds.columns.length > 5 then columnsPreview ++ "..." else columnsPreview
        parts ++ ["\n📊 DATASET ATIVO: " ++ toString ds.row_count ++
                  " registros, colunas: " ++ columnsPreview]
      | none => parts
    String.intercalate "\n" parts

/-- `QueryContextEnhancer.enhance_query` (adapters.py lines 166-187):
return the query unchanged unless `needs_context` holds and an active
dataset is present; otherwise build the context block. Pure in both the
Python (reads only) and here. The `none` arm of the inner match is
unreachable under the guard. -/
def enhance_query (query : String) (s : Session) : String :=
  if !(needs_context query) || s.active_dataset.isNone then query
  else
    match s.active_dataset with
    | some ds =>
      "\nCONTEXTO DA CONVERSA:\n" ++ get_context_summary s ++
      "\n\nÚLTIMA CONSULTA EXECUTADA:\n" ++ ds.query ++
      "\n\nPERGUNTA ATUAL DO USUÁRIO:\n" ++ query ++
      "\n\nINSTRUÇÕES ESPECIAIS:\n" ++
      "- Use os dados da consulta anterior como base para responder a pergunta atual\n" ++
      "- Se o usuário se refere a \"dessas\", \"desses\", etc., ele está falando dos dados da última consulta\n" ++
      "- Considere o contexto completo da conversa ao formular a resposta SQL\n" ++
      "- Se possível, reutilize ou adapte a consulta anterior em vez de criar uma nova do zero\n"
    | none => query

/-! ## Query processor capture (`adapters.py` lines 588-611) -/

/-- The `QueryResult` built by
`QueryProcessorService._try_capture_query_result` (adapters.py lines
601-608) from the text of a regex match: `sql_match.group(0).strip()`,
fixed result text, `row_count=0`, empty columns, type SELECT. -/
def capturedQueryResult (sql_query : String) (now : Nat) : QueryResult :=
  { query := strStrip sql_query
    result_data := "Query executada com sucesso"
    timestamp := now
    row_count := 0
    columns := []
    query_type := QueryType.select }

/-- `_try_capture_query_result` (adapters.py lines 588-611). The outcome of
`re.search(sql_pattern, agent_response, ...)` is passed in as `sqlMatch`
(the matched text, or `none` when the agent reply has no SELECT-shaped
clause); universally quantifying over it covers every behaviour of the
regex. On a match the captured result is added via `add_query_result`. -/
def tryCaptureQueryResult (sqlMatch : Option String) (s : Session) (now : Nat) :
    Session :=
  match sqlMatch with
  | some m => s.add_query_result (capturedQueryResult m now) now
  | none => s

/-! ## Process-query use case (`use_cases.py` lines 14-119) -/

/-- `ProcessQueryRequest` (interfaces.py lines 9-14), the fields the use
case reads. -/
structure ProcessQueryRequest where
  query : String
  session_id : String
  request_id : Option String
deriving DecidableEq

/-- `ProcessQueryResponse` (interfaces.py lines 17-28). -/
structure ProcessQueryResponse where
  success : Bool
  data : Option String
  error : Option String
  error_code : Option String
  error_type : Option String
  retry_after : Option Nat
  session_id : Option String
  context_used : Bool
deriving DecidableEq

/-- The in-memory session repository dict (`services.py` lines 10-32),
keyed by session id. -/
abbrev SessionRepo := List (String × Session)

/-- `SessionId.__post_init__` validation (entities.py lines 19-21):
non-empty and not whitespace-only. -/
def sessionIdValid (sid : String) : Bool :=
  !(strStrip sid = "")

/-- `SessionService.get_session` (services.py lines 45-56): an invalid id
(ValueError from `SessionId`) reads as absent; an expired session is
deleted lazily and reads as absent. Returns the possibly-updated repo. -/
def get_session (repo : SessionRepo) (sid : String) (timeout now : Nat) :
    Option Session × SessionRepo :=
  if sessionIdValid sid then
    match alistFind repo sid with
    | some s =>
      if s.is_expired timeout now then (none, alistDel repo sid) else (some s, repo)
    | none => (none, repo)
  else (none, repo)

/-- The outcome of one call to the injected `IQueryProcessorService`
observed by `ProcessQueryUseCase.execute`: a reply text, an
`asyncio.CancelledError`, or any other exception carrying `str(e)`. -/
inductive AgentOutcome where
  | ok (text : String)
  | cancelled
  | error (msg : String)

/-- The validation failure returned for a blank query (use_cases.py lines
27-31): only `success` and `error` are set. -/
def validationFailureResponse : ProcessQueryResponse :=
  { success := false
    data := none
    error := some "Query vazia fornecida."
    error_code := none
    error_type := none
    retry_after := none
    session_id := none
    context_used := false }

/-- The `asyncio.CancelledError` handler's response (use_cases.py lines
72-80). -/
def cancelledResponse : ProcessQueryResponse :=
  { success := false
    data := none
    error := some "Operação cancelada pelo cliente"
    error_code := some "CANCELLED"
    error_type := some "CANCELLED"
    retry_after := none
    session_id := none
    context_used := false }

/-- The generic `except Exception` classifier of `ProcessQueryUseCase.execute`
(use_cases.py lines 81-119): quota/429 pattern first (retry seconds parsed
from `retry in N`, default 30), then the token-limit pattern, then the
generic server error. -/
def classifyAgentError (msg : String) : ProcessQueryResponse :=
  if strContains msg "429" &&
     (strContains (strLower msg) "quota" || strContains msg "RESOURCE_EXHAUSTED" ||
      strContains msg "Too Many Requests") then
    { success := false
      data := none
      error := some "Limite de requisições atingido. Tente novamente em alguns segundos."
      error_code := some "QUOTA_EXCEEDED"
      error_type := some "QUOTA_ERROR"
      retry_after := some ((parseRetrySeconds msg).getD 30)
      session_id := none
      context_used := false }
  else if strContains msg "MAX_TOKENS" ||
          strContains msg "Response was terminated early" then
    { success := false
      data := none
      error := some ("A resposta do modelo foi interrompida por limite de tokens. " ++
        "Tente uma pergunta mais curta, divida a consulta em partes, " ++
        "ou reduza o contexto enviado.")
      error_code := some "MAX_TOKENS"
      error_type := some "MODEL_ERROR"
      retry_after := none
      session_id := none
      context_used := false }
  else
    { success := false
      data := none
      error := some ("Erro ao processar consulta: " ++ msg)
      error_code := some "PROCESSING_ERROR"
      error_type := some "SERVER_ERROR"
      retry_after := none
      session_id := none
      context_used := false }

/-- What one call to `ProcessQueryUseCase.execute` leaves behind: the typed
response, the repository state, and whether the query processor was
dispatched at all. -/
structure ExecuteOutcome where
  response : ProcessQueryResponse
  repo : SessionRepo
  dispatched : Bool

/-- The dispatching tail of `ProcessQueryUseCase.execute` (use_cases.py
lines 33-119), reached when the query is not blank. `freshId` stands for
the `str(uuid.uuid4())` of line 33 and `freshId2` for the id generated by
`SessionService.create_session` (services.py lines 40-44, which saves the
new session). `proc` is the injected `IQueryProcessorService` call: it
returns its outcome together with the session as it left it (the live
object in the repo, so its mutations are visible there even on failure). -/
def executeDispatch (repo : SessionRepo) (req : ProcessQueryRequest)
    (freshId freshId2 : String) (now timeout : Nat)
    (proc : Session → AgentOutcome × Session) : ExecuteOutcome :=
  let sid0 := if req.session_id = "" then freshId else req.session_id
  let g := get_session repo sid0 timeout now
  let repo1 := g.2
  let sess0 := match g.1 with
    | some s => s
    | none => Session.mk_new freshId2 now
  let sid := match g.1 with
    | some _ => sid0
    | none => freshId2
  let repo2 := match g.1 with
    | some _ => repo1
    | none => alistSet repo1 freshId2 (Session.mk_new freshId2 now)
  let sess1 := sess0.add_message
    { role := "user", content := req.query, timestamp := now, metadata := [] } now
  let repo3 := alistSet repo2 sid sess1
  let pr := proc sess1
  let repoP := alistSet repo3 sid pr.2
  match pr.1 with
  | AgentOutcome.ok text =>
    let sess2 := pr.2.add_message
      { role := "assistant", content := text, timestamp := now, metadata := [] } now
    { response :=
        { success := true
          data := some text
          error := none
          error_code := none
          error_type := none
          retry_after := none
          session_id := some sid
          context_used := true }
      repo := alistSet repoP sid sess2
      dispatched := true }
  | AgentOutcome.cancelled =>
    { response := cancelledResponse, repo := repoP, dispatched := true }
  | AgentOutcome.error msg =>
    { response := classifyAgentError msg, repo := repoP, dispatched := true }

/-- `ProcessQueryUseCase.execute` (use_cases.py lines 19-119): blank-query
validation first (line 27, before any session lookup or creation), then the
dispatch tail. -/
def executeUseCase (repo : SessionRepo) (req : ProcessQueryRequest)
    (freshId freshId2 : String) (now timeout : Nat)
    (proc : Session → AgentOutcome × Session) : ExecuteOutcome :=
  if strStrip req.query = "" then
    { response := validationFailureResponse, repo := repo, dispatched := false }
  else executeDispatch repo req freshId freshId2 now timeout proc

/-- The `timeout=120` budget of `future.result(timeout=120)` in
`LazyLlamaIndexChatAgent.process_query` (lazy_agent.py line 65), the only
wall-clock bound on the external agent call; it is measured from the
submission of the work item to the single-worker executor. -/
def lazyAgentTimeoutSeconds : Nat := 120

/-- `str()` of the `concurrent.futures.TimeoutError` raised when that
budget expires: the empty string (the exception is raised bare). -/
def lazyAgentTimeoutMessage : String := ""

/-! ## Session sync endpoint (`controllers.py` lines 276-326) -/

/-- The sync payload dict as read by the merge handler (controllers.py
lines 287-314): title, createdAt, updatedAt, messages, queryCount
(`queryCount = none` covers both a missing key and a value `int()` would
fail on). -/
structure SyncPayload where
  title : Option String
  createdAt : Option Nat
  updatedAt : Option Nat
  messages : List Message
  queryCount : Option Int

/-- The JSON reply the merge handler is written to produce (controllers.py
lines 319-326): the stored query/message counts after the sync. Never
actually reached — see `sync_session`. -/
structure SyncOutcome where
  query_count : Int
  message_count : Nat

/-- The kind of the Python exception that escapes a handler (exception
messages vary across CPython versions, so only the kind is embedded). -/
inductive PyError where
  | valueError
  | typeError
  | attributeError
deriving DecidableEq

/-- What one call to the merge handler leaves behind: the repository after
the `get_session` side effect (lazy expiry eviction) and either the JSON
reply or the exception that escapes to the transport as HTTP 500. -/
structure SyncResult where
  repo : SessionRepo
  result : Except PyError SyncOutcome

/-- `sync_session` (controllers.py lines 276-326), embedded against the
`Session` class that actually exists in `entities.py` lines 42-111. That
class has no `title`, `stats` or `updated_at` attribute, `created_at` is a
read-only property, and nothing in the repository ever attaches those
attributes to an instance — so every path of the handler raises before the
`max` merge of line 308. With a stored session, line 289 evaluates
`session.title` as the eager default argument of `request.get` and raises
AttributeError. With no stored session, line 287 `Session(SessionId(sid),
title=...)` raises TypeError (`__init__` takes no `title` keyword) — unless
the id is empty/whitespace, in which case `SessionId(sid)` raises
ValueError while the arguments are evaluated. The handler has no
try/except, so the exception escapes as HTTP 500 and the stored session is
never modified. (Independently, this route is shadowed by the earlier
no-op handler registered for the same path at controllers.py lines
206-208, which only prints the payload and touches no session either.) -/
def sync_session (repo : SessionRepo) (sid : String) (_p : SyncPayload)
    (now timeout : Nat) : SyncResult :=
  let g := get_session repo sid timeout now
  match g.1 with
  | some _ => { repo := g.2, result := Except.error PyError.attributeError }
  | none =>
    if sessionIdValid sid then
      { repo := g.2, result := Except.error PyError.typeError }
    else
      { repo := g.2, result := Except.error PyError.valueError }

/-! ## Theorems -/

/-- Claim C1: whenever the calling thread's worker-domain record has been
set to `(s, r)` via `set_for_thread` and no cooperative-domain (ContextVar)
session is set, `get_current` returns exactly `(s, r)`; and whenever a
cooperative-domain session is set, `get_current` returns the
cooperative-domain pair in preference to the thread-local one. -/
theorem get_current_prefers_context_over_thread {α : Type}
    (st : ExecContextState α) (s : α) (r : String) :
    (st.session_var = none →
      get_current (set_for_thread st s r) = (some s, some r))
    ∧ (∀ s0 : α, st.session_var = some s0 →
      get_current st = (some s0, st.request_id_var)) := by
  constructor
  · intro h
    simp [get_current, set_for_thread, h]
  · intro s0 h
    simp [get_current, h]

/-- A freshly spawned worker thread before any binding: both domains empty. -/
def stEmpty : ExecContextState Nat :=
  { session_var := none, request_id_var := none,
    thread_session := none, thread_request_id := none }

/-- A state with a cooperative-domain binding and a different thread-local
one. -/
def stCtx : ExecContextState Nat :=
  { session_var := some 5, request_id_var := some "ctx-req",
    thread_session := some 7, thread_request_id := some "thr-req" }

/-- Witness for C1 at concrete states. -/
theorem get_current_prefers_context_over_thread_witness :
    get_current (set_for_thread stEmpty 7 "req-1") = (some 7, some "req-1")
    ∧ get_current stCtx = (some 5, some "ctx-req") := by
  constructor
  · exact (get_current_prefers_context_over_thread stEmpty 7 "req-1").1 rfl
  · exact (get_current_prefers_context_over_thread stCtx 7 "req-1").2 5 rfl

/-- Claim C2: `set_cancel` before any `register_task` creates an entry with
the latch set; a later `register_task` for the same id preserves the set
latch (so `is_cancelled_current` under a context carrying the id still
answers true); and `set_cancel` is total even for ids never registered. -/
theorem cancel_latch_is_set_and_survives {τ α : Type} (reg : Registry τ)
    (rid : String) (t : Option τ) :
    is_cancelled (set_cancel reg rid) rid = true
    ∧ is_cancelled (register_task (set_cancel reg rid) rid t) rid = true
    ∧ is_cancelled (register_task reg rid t) rid = is_cancelled reg rid
    ∧ (∀ st : ExecContextState α, (get_current st).2 = some rid → rid ≠ "" →
        is_cancelled_current st (register_task (set_cancel reg rid) rid t) = true) := by
  have hset : ∀ r : Registry τ, ∃ t0,
      alistFind (set_cancel r rid) rid = some { task := t0, event := true } := by
    intro r
    cases h : alistFind r rid with
    | none => exact ⟨none, by simp [set_cancel, h, alistFind_alistSet_self]⟩
    | some e => exact ⟨e.task, by simp [set_cancel, h, alistFind_alistSet_self]⟩
  obtain ⟨t0, hf⟩ := hset reg
  have h1 : is_cancelled (set_cancel reg rid) rid = true := by
    simp [is_cancelled, hf]
  have h2 : is_cancelled (register_task (set_cancel reg rid) rid t) rid = true := by
    simp [register_task, hf, is_cancelled, alistFind_alistSet_self]
  have h3 : is_cancelled (register_task reg rid t) rid = is_cancelled reg rid := by
    cases h : alistFind reg rid with
    | none => simp [register_task, h, is_cancelled, alistFind_alistSet_self]
    | some e => simp [register_task, h, is_cancelled, alistFind_alistSet_self]
  refine ⟨h1, h2, h3, ?_⟩
  intro st hst hrid
  simp [is_cancelled_current, hst, hrid, h2]

/-- A thread-domain state carrying request id `r1` and no other binding. -/
def stThread : ExecContextState Unit :=
  { session_var := none, request_id_var := none,
    thread_session := none, thread_request_id := some "r1" }

/-- Witness for C2: cancel a never-registered id on the empty registry,
register afterwards, and observe cancellation from the execution context. -/
theorem cancel_latch_is_set_and_survives_witness :
    is_cancelled_current stThread
      (register_task (set_cancel ([] : Registry Unit) "r1") "r1" none) = true := by
  exact (@cancel_latch_is_set_and_survives Unit Unit [] "r1" none).2.2.2
    stThread rfl (by decide)

/-- Claim C9: `enhance_query q s` returns `q` unchanged whenever
`needs_context q` is false or `s.active_dataset` is absent (and, being a
pure function of `q` and `s`, modifies nothing). -/
theorem enhance_query_noop (q : String) (s : Session)
    (h : needs_context q = false ∨ s.active_dataset = none) :
    enhance_query q s = q := by
  rcases h with h | h
  · simp [enhance_query, h]
  · simp [enhance_query, h]

/-- Witness for C9: a non-contextual query on a fresh session, and a
contextual query (`"resultado"` is a contextual keyword) on a session
without an active dataset. -/
theorem enhance_query_noop_witness :
    enhance_query "ola" (Session.mk_new "s1" 0) = "ola"
    ∧ enhance_query "resultado" (Session.mk_new "s1" 0) = "resultado" := by
  constructor
  · exact enhance_query_noop "ola" (Session.mk_new "s1" 0) (Or.inl (by decide))
  · exact enhance_query_noop "resultado" (Session.mk_new "s1" 0) (Or.inr rfl)

/-- Claim C10: every `QueryResult` built by the best-effort SELECT capture
has `row_count = 0` and empty columns, so the capture path never changes
`active_dataset`, whatever the regex matched. -/
theorem capture_never_sets_active_dataset (m : Option String) (q : String)
    (s : Session) (now : Nat) :
    (tryCaptureQueryResult m s now).active_dataset = s.active_dataset
    ∧ (capturedQueryResult q now).row_count = 0
    ∧ (capturedQueryResult q now).columns = [] := by
  refine ⟨?_, rfl, rfl⟩
  cases m with
  | none => rfl
  | some m0 =>
    simp [tryCaptureQueryResult, Session.add_query_result, capturedQueryResult]

/-! ### Query result buffer (claims C7, C8) -/

/-- Folding a sequence of `add_query_result` calls over a session, all
stamped with the same clock (the clock never influences the buffer or the
active dataset). -/
def foldAddResults (s : Session) (rs : List QueryResult) (now : Nat) : Session :=
  rs.foldl (fun t r => t.add_query_result r now) s

/-- The spec's "most recent result with `row_count > 0`" of a sequence of
added results (spec §3: active dataset characterization); later elements
win. -/
def lastPositiveResult : List QueryResult → Option QueryResult
  | [] => none
  | q :: rs =>
    match lastPositiveResult rs with
    | some r => some r
    | none => if q.row_count > 0 then some q else none

theorem foldAddResults_active (s : Session) (rs : List QueryResult) (now : Nat) :
    (foldAddResults s rs now).active_dataset =
      match lastPositiveResult rs with
      | some r => some r
      | none => s.active_dataset := by
  induction rs generalizing s with
  | nil => rfl
  | cons q rs ih =>
    have hstep : foldAddResults s (q :: rs) now =
        foldAddResults (s.add_query_result q now) rs now := rfl
    rw [hstep, ih]
    cases h : lastPositiveResult rs with
    | some r => simp [lastPositiveResult, h]
    | none =>
      by_cases hq : q.row_count > 0
      · simp [lastPositiveResult, h, hq, Session.add_query_result]
      · simp [lastPositiveResult, h, hq, Session.add_query_result]

theorem foldAddResults_append (s : Session) (rs : List QueryResult)
    (r : QueryResult) (now : Nat) :
    foldAddResults s (rs ++ [r]) now =
      (foldAddResults s rs now).add_query_result r now := by
  simp [foldAddResults, List.foldl_append]

theorem foldAddResults_query_results (rs : List QueryResult) (now : Nat)
    (sid : String) (t0 : Nat) :
    (foldAddResults (Session.mk_new sid t0) rs now).query_results =
      rs.drop (rs.length - 5) := by
  induction rs using List.reverseRecOn with
  | nil => rfl
  | append_singleton l r ih =>
    rw [foldAddResults_append]
    show (if ((foldAddResults (Session.mk_new sid t0) l now).query_results ++ [r]).length > 5
          then ((foldAddResults (Session.mk_new sid t0) l now).query_results ++ [r]).tail
          else (foldAddResults (Session.mk_new sid t0) l now).query_results ++ [r]) = _
    rw [ih]
    by_cases h : l.length ≤ 4
    · have h5 : l.length - 5 = 0 := by omega
      have h5' : (l ++ [r]).length - 5 = 0 := by
        simp
        omega
      rw [h5, h5', List.drop_zero, List.drop_zero,
        if_neg (by simp; omega : ¬(l ++ [r]).length > 5)]
    · have hlen : (l.drop (l.length - 5)).length = 5 := by
        simp [List.length_drop]
        omega
      have hcond : (l.drop (l.length - 5) ++ [r]).length > 5 := by
        simp [hlen]
      rw [if_pos hcond]
      have htail : (l.drop (l.length - 5) ++ [r]).tail = l.drop (l.length - 4) ++ [r] := by
        rw [← List.drop_one,
          List.drop_append_of_le_length (by rw [hlen]; omega), List.drop_drop]
        have h14 : l.length - 5 + 1 = l.length - 4 := by omega
        rw [h14]
      have hsub : (l ++ [r]).length - 5 = l.length - 4 := by
        simp only [List.length_append, List.length_singleton]
        omega
      rw [htail, hsub,
        List.drop_append_of_le_length (by omega : l.length - 4 ≤ l.length)]

/-- Claim C7: `add_query_result` with `row_count = 0` leaves
`active_dataset` unchanged, with `row_count > 0` installs the new result;
consequently after any sequence of additions the active dataset is the most
recently added result with positive row count (falling back to the prior
value when there is none). -/
theorem add_query_result_active_dataset (s : Session) (q : QueryResult)
    (rs : List QueryResult) (now : Nat) :
    (q.row_count = 0 → (s.add_query_result q now).active_dataset = s.active_dataset)
    ∧ (q.row_count > 0 → (s.add_query_result q now).active_dataset = some q)
    ∧ ((foldAddResults s rs now).active_dataset =
        match lastPositiveResult rs with
        | some r => some r
        | none => s.active_dataset) := by
  refine ⟨?_, ?_, foldAddResults_active s rs now⟩
  · intro h
    simp [Session.add_query_result, h]
  · intro h
    simp [Session.add_query_result, h]

/-- A result with three rows. -/
def qrPos : QueryResult :=
  { query := "SELECT 1", result_data := "d", timestamp := 0, row_count := 3,
    columns := ["a"], query_type := QueryType.select }

/-- A result with zero rows. -/
def qrZero : QueryResult :=
  { query := "SELECT 2", result_data := "d", timestamp := 0, row_count := 0,
    columns := [], query_type := QueryType.select }

/-- Witness for C7: a non-empty result becomes the active dataset and a
subsequent empty result does not displace it. -/
theorem add_query_result_active_dataset_witness :
    ((Session.mk_new "s1" 0).add_query_result qrPos 0).active_dataset = some qrPos
    ∧ (((Session.mk_new "s1" 0).add_query_result qrPos 0).add_query_result
        qrZero 0).active_dataset = some qrPos := by
  have h1 := (add_query_result_active_dataset (Session.mk_new "s1" 0) qrPos [] 0).2.1
    (by decide)
  have h2 := (add_query_result_active_dataset
    ((Session.mk_new "s1" 0).add_query_result qrPos 0) qrZero [] 0).1 (by decide)
  exact ⟨h1, h2.trans h1⟩

/-- Claim C8: starting from a fresh session, after any sequence of
`add_query_result` calls the buffer holds exactly the last five results in
order (the oldest are the ones evicted), hence never exceeds length 5; and
one `add_query_result` preserves the length-5 bound from any session
satisfying it. -/
theorem query_results_ring_buffer (rs : List QueryResult) (now t0 : Nat)
    (sid : String) (s : Session) (q : QueryResult) :
    ((foldAddResults (Session.mk_new sid t0) rs now).query_results =
      rs.drop (rs.length - 5))
    ∧ (foldAddResults (Session.mk_new sid t0) rs now).query_results.length ≤ 5
    ∧ (s.query_results.length ≤ 5 →
        (s.add_query_result q now).query_results.length ≤ 5) := by
  refine ⟨foldAddResults_query_results rs now sid t0, ?_, ?_⟩
  · rw [foldAddResults_query_results rs now sid t0]
    simp only [List.length_drop]
    omega
  · intro h
    show (if (s.query_results ++ [q]).length > 5
          then (s.query_results ++ [q]).tail
          else s.query_results ++ [q]).length ≤ 5
    by_cases h6 : (s.query_results ++ [q]).length > 5
    · rw [if_pos h6]
      simp at h6 ⊢
      omega
    · rw [if_neg h6]
      omega

/-- Seven distinct results to overflow the capacity-5 buffer. -/
def rs7 : List QueryResult :=
  (List.range 7).map (fun i =>
    { query := "q", result_data := "", timestamp := i, row_count := 0,
      columns := [], query_type := QueryType.select })

/-- Witness for C8: adding seven results keeps exactly the last five, in
FIFO order, and the bound is preserved by one more addition. -/
theorem query_results_ring_buffer_witness :
    (foldAddResults (Session.mk_new "s1" 0) rs7 0).query_results = rs7.drop 2
    ∧ (foldAddResults (Session.mk_new "s1" 0) rs7 0).query_results.length ≤ 5
    ∧ ((Session.mk_new "s1" 0).add_query_result qrZero 0).query_results.length ≤ 5 := by
  have h := query_results_ring_buffer rs7 0 0 "s1" (Session.mk_new "s1" 0) qrZero
  refine ⟨h.1.trans (by decide), h.2.1, h.2.2 (by decide)⟩

/-! ### Use-case error handling (claims C3, C4, C5) -/

theorem executeUseCase_error_response (repo : SessionRepo)
    (req : ProcessQueryRequest) (f1 f2 : String) (now timeout : Nat)
    (g : Session → Session) (msg : String) (hq : ¬strStrip req.query = "") :
    (executeUseCase repo req f1 f2 now timeout
      (fun s => (AgentOutcome.error msg, g s))).response = classifyAgentError msg := by
  unfold executeUseCase
  rw [if_neg hq]
  rfl

/-- Claim C4: an exception whose message contains `"429"` together with a
quota/rate-limit marker makes the turn fail with kind `QUOTA_ERROR`
(code `QUOTA_EXCEEDED`), with the retry-after seconds parsed from a
`retry in N` fragment when one is present and 30 otherwise. -/
theorem quota_error_classification (repo : SessionRepo)
    (req : ProcessQueryRequest) (f1 f2 : String) (now timeout : Nat)
    (g : Session → Session) (msg : String)
    (hq : ¬strStrip req.query = "")
    (h429 : strContains msg "429" = true)
    (hmark : strContains (strLower msg) "quota" = true
      ∨ strContains msg "RESOURCE_EXHAUSTED" = true
      ∨ strContains msg "Too Many Requests" = true) :
    (executeUseCase repo req f1 f2 now timeout
      (fun s => (AgentOutcome.error msg, g s))).response.success = false
    ∧ (executeUseCase repo req f1 f2 now timeout
      (fun s => (AgentOutcome.error msg, g s))).response.error_type = some "QUOTA_ERROR"
    ∧ (executeUseCase repo req f1 f2 now timeout
      (fun s => (AgentOutcome.error msg, g s))).response.error_code = some "QUOTA_EXCEEDED"
    ∧ (executeUseCase repo req f1 f2 now timeout
      (fun s => (AgentOutcome.error msg, g s))).response.retry_after =
        some ((parseRetrySeconds msg).getD 30) := by
  rw [executeUseCase_error_response repo req f1 f2 now timeout g msg hq]
  have hmark' : (strContains (strLower msg) "quota" || strContains msg "RESOURCE_EXHAUSTED"
      || strContains msg "Too Many Requests") = true := by
    rcases hmark with h | h | h <;> simp [h]
  simp [classifyAgentError, h429, hmark']

/-- The message of the scenario: 429 plus quota markers plus a retry hint. -/
def quotaMsg : String := "429 Too Many Requests: quota exceeded, retry in 45 seconds"

/-- Witness for C4: the scenario message yields kind QUOTA_ERROR and
retry-after 45. -/
theorem quota_error_classification_witness :
    (executeUseCase [] { query := "quantos clientes", session_id := "", request_id := none }
      "f1" "f2" 0 3600
      (fun s => (AgentOutcome.error quotaMsg, id s))).response.error_type = some "QUOTA_ERROR"
    ∧ (executeUseCase [] { query := "quantos clientes", session_id := "", request_id := none }
      "f1" "f2" 0 3600
      (fun s => (AgentOutcome.error quotaMsg, id s))).response.retry_after = some 45 := by
  have h := quota_error_classification []
    { query := "quantos clientes", session_id := "", request_id := none }
    "f1" "f2" 0 3600 id quotaMsg (by decide) (by decide) (Or.inl (by decide))
  exact ⟨h.2.1, h.2.2.2.trans (by decide)⟩

/-- Claim C5 (amended): a whitespace-only query makes `execute` return a
local failure whose `error_code` is left unset (not `VALIDATION`), without
dispatching to the query processor and without creating or modifying any
session. -/
theorem empty_query_validation_failure (repo : SessionRepo)
    (req : ProcessQueryRequest) (f1 f2 : String) (now timeout : Nat)
    (proc : Session → AgentOutcome × Session) (h : strStrip req.query = "") :
    (executeUseCase repo req f1 f2 now timeout proc).response.success = false
    ∧ (executeUseCase repo req f1 f2 now timeout proc).response.error =
        some "Query vazia fornecida."
    ∧ (executeUseCase repo req f1 f2 now timeout proc).response.error_code = none
    ∧ (executeUseCase repo req f1 f2 now timeout proc).repo = repo
    ∧ (executeUseCase repo req f1 f2 now timeout proc).dispatched = false := by
  unfold executeUseCase
  rw [if_pos h]
  exact ⟨rfl, rfl, rfl, rfl, rfl⟩

/-- Counterexample to C5 as stated: on the whitespace query the response
carries no `VALIDATION` error code (the code sets none at all). -/
theorem empty_query_no_validation_code :
    ¬((executeUseCase [] { query := "   ", session_id := "", request_id := none }
      "f1" "f2" 0 3600
      (fun s => (AgentOutcome.ok "hi", s))).response.error_code = some "VALIDATION") := by
  decide

/-- Witness for the amended C5 at the whitespace query. -/
theorem empty_query_validation_failure_witness :
    (executeUseCase [] { query := "   ", session_id := "", request_id := none }
      "f1" "f2" 0 3600
      (fun s => (AgentOutcome.ok "hi", s))).response.success = false
    ∧ (executeUseCase [] { query := "   ", session_id := "", request_id := none }
      "f1" "f2" 0 3600
      (fun s => (AgentOutcome.ok "hi", s))).response.error_code = none
    ∧ (executeUseCase [] { query := "   ", session_id := "", request_id := none }
      "f1" "f2" 0 3600
      (fun s => (AgentOutcome.ok "hi", s))).repo = []
    ∧ (executeUseCase [] { query := "   ", session_id := "", request_id := none }
      "f1" "f2" 0 3600
      (fun s => (AgentOutcome.ok "hi", s))).dispatched = false := by
  have h := empty_query_validation_failure []
    { query := "   ", session_id := "", request_id := none } "f1" "f2" 0 3600
    (fun s => (AgentOutcome.ok "hi", s)) (by decide)
  exact ⟨h.1, h.2.2.1, h.2.2.2.1, h.2.2.2.2⟩

/-- Counterexample to C3 as stated: when the only timeout budget of the
stack (the lazy agent's 120 s `future.result` bound) expires, the raised
`TimeoutError` stringifies to `""`, which the use-case classifier maps to
the generic `PROCESSING_ERROR`/`SERVER_ERROR` response — not to any
distinct Timeout kind, so the response boundary cannot report `TIMEOUT`. -/
theorem timeout_reported_as_generic_server_error :
    (executeUseCase [] { query := "listar clientes", session_id := "", request_id := none }
      "f1" "f2" 0 3600
      (fun s => (AgentOutcome.error lazyAgentTimeoutMessage, s))).response.error_code =
        some "PROCESSING_ERROR"
    ∧ (executeUseCase [] { query := "listar clientes", session_id := "", request_id := none }
      "f1" "f2" 0 3600
      (fun s => (AgentOutcome.error lazyAgentTimeoutMessage, s))).response.error_type =
        some "SERVER_ERROR"
    ∧ ¬((executeUseCase [] { query := "listar clientes", session_id := "", request_id := none }
      "f1" "f2" 0 3600
      (fun s => (AgentOutcome.error lazyAgentTimeoutMessage, s))).response.error_code =
        some "TIMEOUT") := by
  refine ⟨by decide, by decide, by decide⟩

/-- Claim C3 (amended): the 120-second wall-clock budget is enforced in the
lazy agent adapter, measured from dispatch of the work item; on expiry the
turn fails through the generic branch of the classifier (`PROCESSING_ERROR`
/ `SERVER_ERROR`), because the empty exception message matches neither the
quota nor the token-limit patterns. -/
theorem timeout_budget_and_generic_classification :
    lazyAgentTimeoutSeconds = 120
    ∧ (classifyAgentError lazyAgentTimeoutMessage).error_code = some "PROCESSING_ERROR"
    ∧ (classifyAgentError lazyAgentTimeoutMessage).error_type = some "SERVER_ERROR"
    ∧ (classifyAgentError lazyAgentTimeoutMessage).retry_after = none := by
  refine ⟨rfl, by decide, by decide, by decide⟩

/-! ### Session stats sync (claim C6) -/

/-- A server-side session whose stored query count is 7, as in the spec's
sync scenario. -/
def sessionQc7 : Session :=
  { session_id := "s1"
    created_at := 0
    last_activity := 0
    updated_at := 0
    message_history := []
    query_results := []
    active_dataset := none
    stats := { message_count := 0, query_count := 7, updated_at := 0 }
    title := none }

/-- The payload pushing `queryCount = 10`. -/
def payload10 : SyncPayload :=
  { title := none, createdAt := none, updatedAt := none, messages := [],
    queryCount := some 10 }

/-- Claim C6 (code bug): the spec's monotonic max-merge is never performed.
Evaluating the merge handler at the spec scenario's input — pushing
`queryCount = 10` against a stored session whose count is 7 — it raises
AttributeError before the `max` at controllers.py line 308, leaving the
stored session (count 7) untouched; against an unknown session id it
raises TypeError. The `max` merge written at line 308 is unreachable on
every input. -/
theorem sync_session_crashes_before_merge :
    (sync_session [("s1", sessionQc7)] "s1" payload10 0 3600).result =
      Except.error PyError.attributeError
    ∧ (sync_session [("s1", sessionQc7)] "s1" payload10 0 3600).repo =
      [("s1", sessionQc7)]
    ∧ (sync_session [] "s2" payload10 0 3600).result =
      Except.error PyError.typeError := by
  exact ⟨rfl, rfl, rfl⟩

end ChatbotSql
